import Mathlib

/-!
Shallow embedding of `src/App.js` of the volunteer-record application:
a single-page board of volunteer-activity records with per-record comments,
backed by a Supabase REST store.  Pure data (rows, payloads) and the state
transitions of the React component are modelled as Lean definitions; the
store is modelled as in-memory lists with an operation log, and the
asynchronous reload is modelled by recomputing the joined record list from
the store after each mutation, exactly as `loadRecords` does.
-/

namespace VolunteerRecord

/-- A row of the `records` table (see the `CREATE TABLE records` schema in
`App.js`): server-assigned `id` and `created_at`, the activity fields, the
author credentials and the embedded photo blobs. -/
structure RecordRow where
  id : Nat
  created_at : Nat
  date : String
  name : String
  organization : String
  hours : Rat
  location : Option String
  participants : Option String
  description : Option String
  author_name : String
  author_password : String
  photos : List String
deriving Repr, DecidableEq

/-- A row of the `comments` table: server-assigned `id` and `created_at`,
the owning record's id, the commenter fields and the display timestamp. -/
structure CommentRow where
  id : Nat
  created_at : Nat
  record_id : Nat
  nickname : String
  password : String
  content : String
  timestamp : String
deriving Repr, DecidableEq

/-- A record as held in the component's `records` state after `loadRecords`:
the fetched row together with the attached `comments` list
(`{...record, comments: ...}`). -/
structure LoadedRecord where
  row : RecordRow
  comments : List CommentRow
deriving Repr, DecidableEq

/-- The backing store's two inserted collections (membership only; the
per-request ordering is applied at fetch time). -/
structure Store where
  records : List RecordRow
  comments : List CommentRow
deriving Repr, DecidableEq

/-- Comparator for `order=created_at.desc` on `records`. -/
def byCreatedAtDesc (a b : RecordRow) : Bool :=
  decide (b.created_at ≤ a.created_at)

/-- Comparator for `order=created_at.asc` on `comments`. -/
def byCreatedAtAsc (a b : CommentRow) : Bool :=
  decide (a.created_at ≤ b.created_at)

/-- The result of `supabase.select('records', 'select=*&order=created_at.desc')`:
the stored rows, delivered sorted by creation time, newest first (a stable
server-side sort, modelled by `mergeSort`). -/
def fetchRecords (s : Store) : List RecordRow :=
  s.records.mergeSort byCreatedAtDesc

/-- The result of `supabase.select('comments', 'select=*&order=created_at.asc')`:
the stored rows sorted by ascending creation time. -/
def fetchComments (s : Store) : List CommentRow :=
  s.comments.mergeSort byCreatedAtAsc

/-- The join step of `loadRecords`:
`recordsData.map(record => ({...record, comments:
commentsData.filter(comment => comment.record_id === record.id)}))`. -/
def attachComments (recordsData : List RecordRow) (commentsData : List CommentRow) :
    List LoadedRecord :=
  recordsData.map fun record =>
    { row := record
      comments := commentsData.filter fun comment => comment.record_id == record.id }

/-- `loadRecords`: fetch both collections and rebuild the joined list from
scratch. -/
def loadRecords (s : Store) : List LoadedRecord :=
  attachComments (fetchRecords s) (fetchComments s)

/-- Value of an unsigned decimal digit string (helper for the models of the
JavaScript number builtins below). -/
def decDigitsVal (cs : List Char) : Nat :=
  cs.foldl (fun n c => n * 10 + (c.toNat - 48)) 0

/-- Model of JavaScript `parseFloat` on the unsigned decimal literals
produced by the app's `<input type="number">` field (`3`, `2.5`, ...);
the exotic cases (signs, exponents, `NaN`) are never produced by that input
and no claim depends on them. -/
def parseFloat (s : String) : Rat :=
  let intPart := s.data.takeWhile (fun c => c ≠ '.')
  match s.data.dropWhile (fun c => c ≠ '.') with
  | [] => (decDigitsVal intPart : Rat)
  | _ :: rest =>
      let frac := rest.takeWhile (fun c => c ≠ '.')
      mkRat ((decDigitsVal intPart * 10 ^ frac.length + decDigitsVal frac : Nat) : Int)
        (10 ^ frac.length)

/-- Model of JavaScript `String.prototype.trim`: strip leading and trailing
whitespace. -/
def jsTrim (s : String) : String :=
  String.mk (((s.data.dropWhile Char.isWhitespace).reverse.dropWhile Char.isWhitespace).reverse)

/-- Model of `str || null` on a string draft field: the empty string is the
only falsy string, so it is replaced by `null`. -/
def jsOrNull (s : String) : Option String :=
  if s == "" then none else some s

/-- Model of `new Date(dateString).getTime()` restricted to the ISO
`YYYY-MM-DD` strings produced by the app's `<input type="date">`: reading
the digits as one number is order-isomorphic to the timestamp, which is all
the sort comparator consumes. -/
def dateValue (s : String) : Nat :=
  decDigitsVal (s.data.filter (fun c => c ≠ '-'))

/-- Payload of `supabase.insert('records', newRecord)` as built in
`addRecord` (no `id`/`created_at`: those are server-assigned). -/
structure RecordPayload where
  date : String
  name : String
  organization : String
  hours : Rat
  location : Option String
  participants : Option String
  description : Option String
  author_name : String
  author_password : String
  photos : List String
deriving Repr, DecidableEq

/-- Payload of `supabase.update('records', updatedData, ...)` as built in
`updateRecord`: exactly the eight editable columns, nothing else. -/
structure UpdatePayload where
  date : String
  name : String
  organization : String
  hours : Rat
  location : Option String
  participants : Option String
  description : Option String
  photos : List String
deriving Repr, DecidableEq

/-- Payload of `supabase.insert('comments', comment)` as built in
`addComment`. -/
structure CommentPayload where
  record_id : Nat
  nickname : String
  password : String
  content : String
  timestamp : String
deriving Repr, DecidableEq

/-- One Gateway request, as issued by the action handlers. -/
inductive StoreOp where
  | selectRecords
  | selectComments
  | insertRecord (payload : RecordPayload)
  | insertComment (payload : CommentPayload)
  | updateRecordById (payload : UpdatePayload) (id : Nat)
  | deleteCommentsByRecordId (recordId : Nat)
  | deleteRecordById (id : Nat)
  | deleteCommentById (id : Nat)
deriving Repr, DecidableEq

/-- The backing service: the store plus the server-side id/clock sources for
inserted rows. -/
structure Server where
  store : Store
  nextId : Nat
  clock : Nat
deriving Repr, DecidableEq

/-- Semantics of a `PATCH` carrying `updatedData`: exactly the payload's
columns are overwritten, every other column of the row is untouched. -/
def applyUpdate (p : UpdatePayload) (r : RecordRow) : RecordRow :=
  { r with
    date := p.date
    name := p.name
    organization := p.organization
    hours := p.hours
    location := p.location
    participants := p.participants
    description := p.description
    photos := p.photos }

/-- Effect of one Gateway request on the backing service.  Selects read
only; inserts append a row completed with the server-assigned `id` and
`created_at`; scoped updates/deletes apply to the rows matched by the
`eq.` condition. -/
def applyOp (op : StoreOp) (sv : Server) : Server :=
  match op with
  | .selectRecords => sv
  | .selectComments => sv
  | .insertRecord p =>
      { sv with
        store := { sv.store with
          records := sv.store.records ++
            [{ id := sv.nextId, created_at := sv.clock, date := p.date, name := p.name,
               organization := p.organization, hours := p.hours, location := p.location,
               participants := p.participants, description := p.description,
               author_name := p.author_name, author_password := p.author_password,
               photos := p.photos }] }
        nextId := sv.nextId + 1
        clock := sv.clock + 1 }
  | .insertComment p =>
      { sv with
        store := { sv.store with
          comments := sv.store.comments ++
            [{ id := sv.nextId, created_at := sv.clock, record_id := p.record_id,
               nickname := p.nickname, password := p.password, content := p.content,
               timestamp := p.timestamp }] }
        nextId := sv.nextId + 1
        clock := sv.clock + 1 }
  | .updateRecordById p i =>
      { sv with store := { sv.store with
          records := sv.store.records.map fun r => if r.id == i then applyUpdate p r else r } }
  | .deleteCommentsByRecordId i =>
      { sv with store := { sv.store with
          comments := sv.store.comments.filter fun c => !(c.record_id == i) } }
  | .deleteRecordById i =>
      { sv with store := { sv.store with
          records := sv.store.records.filter fun r => !(r.id == i) } }
  | .deleteCommentById i =>
      { sv with store := { sv.store with
          comments := sv.store.comments.filter fun c => !(c.id == i) } }

/-- Run a sequence of Gateway requests in order. -/
def applyOps (sv : Server) (ops : List StoreOp) : Server :=
  ops.foldl (fun s op => applyOp op s) sv

/-- The `formData` state: the form draft, all fields held as raw strings. -/
structure FormDataState where
  date : String
  name : String
  organization : String
  hours : String
  location : String
  participants : String
  description : String
  author_name : String
  author_password : String
deriving Repr, DecidableEq

/-- The `newComment` state. -/
structure NewCommentState where
  nickname : String
  password : String
  content : String
deriving Repr, DecidableEq

/-- The draft produced by `useState`'s initializer and by `resetForm`:
today's date and otherwise empty fields. -/
def initialFormData (today : String) : FormDataState :=
  { date := today, name := "", organization := "", hours := "", location := "",
    participants := "", description := "", author_name := "", author_password := "" }

/-- The component's state hooks relevant to the data/view model. -/
structure AppState where
  records : List LoadedRecord
  loading : Bool
  currentView : String
  selectedRecord : Option LoadedRecord
  showModal : Bool
  showEditModal : Bool
  showDeleteModal : Bool
  showCommentDeleteModal : Bool
  deleteTarget : Option Nat
  editTarget : Option LoadedRecord
  selectedPhotos : List String
  adminPassword : String
  commentToDelete : Option CommentRow
  commentPassword : String
  editPassword : String
  newComment : NewCommentState
  sortOrder : String
  formData : FormDataState
deriving Repr, DecidableEq

/-- `resetForm`: reset the draft to the initial form data (today's date,
everything else empty, including `author_password`) and clear the staged
photo list. -/
def resetForm (today : String) (st : AppState) : AppState :=
  { st with formData := initialFormData today, selectedPhotos := [] }

/-- Outcome of one action handler, mirroring which `alert` branch ran. -/
inductive ActionResult where
  | validationAlert
  | authAlert
  | success
  | jsError
deriving Repr, DecidableEq

/-- Result of running an action handler: the component state and backing
service afterwards, plus the Gateway requests issued, in order. -/
structure ActionOut where
  st : AppState
  sv : Server
  ops : List StoreOp
  result : ActionResult
deriving Repr, DecidableEq

/-- The `newRecord` object literal built in `addRecord`: required fields
taken verbatim, `hours` numerically parsed, the optional fields put through
`|| null`, photos from the staged list. -/
def mkNewRecord (fd : FormDataState) (selectedPhotos : List String) : RecordPayload :=
  { date := fd.date, name := fd.name, organization := fd.organization,
    hours := parseFloat fd.hours, location := jsOrNull fd.location,
    participants := jsOrNull fd.participants, description := jsOrNull fd.description,
    author_name := fd.author_name, author_password := fd.author_password,
    photos := selectedPhotos }

/-- The `updatedData` object literal built in `updateRecord`: only the eight
editable columns (`id`, `author_name` and `author_password` are absent). -/
def mkUpdatedData (fd : FormDataState) (selectedPhotos : List String) : UpdatePayload :=
  { date := fd.date, name := fd.name, organization := fd.organization,
    hours := parseFloat fd.hours, location := jsOrNull fd.location,
    participants := jsOrNull fd.participants, description := jsOrNull fd.description,
    photos := selectedPhotos }

/-- `addRecord`: validate the six required draft fields non-empty (JS
falsiness on strings is emptiness), insert, reload, close the create modal
and reset the draft. -/
def addRecord (today : String) (st : AppState) (sv : Server) : ActionOut :=
  let fd := st.formData
  if fd.date == "" || fd.name == "" || fd.organization == "" || fd.hours == "" ||
      fd.author_name == "" || fd.author_password == "" then
    { st := st, sv := sv, ops := [], result := .validationAlert }
  else
    let newRecord := mkNewRecord fd st.selectedPhotos
    let sv' := applyOp (.insertRecord newRecord) sv
    let st' := resetForm today
      { st with records := loadRecords sv'.store, loading := false, showModal := false }
    { st := st', sv := sv',
      ops := [.insertRecord newRecord, .selectRecords, .selectComments], result := .success }

/-- `openEditModal`: copy the target record's fields into the draft (the
password field starts blank, optional fields fall back to `''`), stage its
photo list, open the edit modal and clear the edit password. -/
def openEditModal (record : LoadedRecord) (st : AppState) : AppState :=
  { st with
    editTarget := some record
    formData :=
      { date := record.row.date, name := record.row.name,
        organization := record.row.organization, hours := toString record.row.hours,
        location := record.row.location.getD "", participants := record.row.participants.getD "",
        description := record.row.description.getD "", author_name := record.row.author_name,
        author_password := "" }
    selectedPhotos := record.row.photos
    showEditModal := true
    editPassword := "" }

/-- `updateRecord`: reject unless the entered edit password equals the
target's stored `author_password`; then validate the four required fields;
on success patch the editable columns, reload, close the edit modal
(clearing target, edit password and draft) and return to the main view.
The handler reads `editTarget`, which the UI sets before it can run; a
missing target would be a null dereference in JS and is mapped to a
degenerate `jsError` outcome. -/
def updateRecord (today : String) (st : AppState) (sv : Server) : ActionOut :=
  match st.editTarget with
  | none => { st := st, sv := sv, ops := [], result := .jsError }
  | some editTarget =>
    if st.editPassword ≠ editTarget.row.author_password then
      { st := st, sv := sv, ops := [], result := .authAlert }
    else
      let fd := st.formData
      if fd.date == "" || fd.name == "" || fd.organization == "" || fd.hours == "" then
        { st := st, sv := sv, ops := [], result := .validationAlert }
      else
        let updatedData := mkUpdatedData fd st.selectedPhotos
        let sv' := applyOp (.updateRecordById updatedData editTarget.row.id) sv
        let st' := resetForm today
          { st with
            records := loadRecords sv'.store
            loading := false
            showEditModal := false
            editTarget := none
            editPassword := ""
            currentView := "main" }
        { st := st', sv := sv',
          ops := [.updateRecordById updatedData editTarget.row.id,
                  .selectRecords, .selectComments],
          result := .success }

/-- `openDeleteModal`: remember the target record id, open the admin-delete
modal and clear the admin password. -/
def openDeleteModal (recordId : Nat) (st : AppState) : AppState :=
  { st with deleteTarget := some recordId, showDeleteModal := true, adminPassword := "" }

/-- `deleteRecord`: reject unless the entered admin password equals the
process-wide `ADMIN_PASSWORD` (an env var, hence possibly absent: a plain
string never equals `undefined`); on success delete the target's comments,
then the record, reload, close the modal (clearing target and admin
password) and return to the main view.  The modal flow sets `deleteTarget`
before this can run; the absent-target case is mapped to a degenerate
outcome. -/
def deleteRecord (ADMIN_PASSWORD : Option String) (st : AppState) (sv : Server) : ActionOut :=
  if some st.adminPassword ≠ ADMIN_PASSWORD then
    { st := st, sv := sv, ops := [], result := .authAlert }
  else
    match st.deleteTarget with
    | none => { st := st, sv := sv, ops := [], result := .jsError }
    | some deleteTarget =>
      let sv' := applyOps sv [.deleteCommentsByRecordId deleteTarget,
                              .deleteRecordById deleteTarget]
      let st' :=
        { st with
          records := loadRecords sv'.store
          loading := false
          showDeleteModal := false
          deleteTarget := none
          adminPassword := ""
          currentView := "main" }
      { st := st', sv := sv',
        ops := [.deleteCommentsByRecordId deleteTarget, .deleteRecordById deleteTarget,
                .selectRecords, .selectComments],
        result := .success }

/-- `addComment`: validate nickname, password and content non-empty after
trimming each; on success insert the comment (nickname and content stored
trimmed, the password stored as entered), reload, and optimistically patch
the locally held selected record — the `records` read there is the closure's
pre-reload value — appending the comment under a locally fabricated
`Date.now()` id (`now`; the optimistic object has no server `created_at`,
modelled as `0`), then clear the comment draft.  `nowLocale` is the
locale-formatted display timestamp captured at creation time. -/
def addComment (now : Nat) (nowLocale : String) (recordId : Nat)
    (st : AppState) (sv : Server) : ActionOut :=
  if jsTrim st.newComment.nickname == "" || jsTrim st.newComment.password == "" ||
      jsTrim st.newComment.content == "" then
    { st := st, sv := sv, ops := [], result := .validationAlert }
  else
    let comment : CommentPayload :=
      { record_id := recordId, nickname := jsTrim st.newComment.nickname,
        password := st.newComment.password, content := jsTrim st.newComment.content,
        timestamp := nowLocale }
    let sv' := applyOp (.insertComment comment) sv
    let optimistic : CommentRow :=
      { id := now, created_at := 0, record_id := comment.record_id,
        nickname := comment.nickname, password := comment.password,
        content := comment.content, timestamp := comment.timestamp }
    let selectedRecord' :=
      match st.records.find? (fun r => r.row.id == recordId) with
      | some updatedRecord =>
          some { updatedRecord with comments := updatedRecord.comments ++ [optimistic] }
      | none => st.selectedRecord
    let st' :=
      { st with
        records := loadRecords sv'.store
        loading := false
        selectedRecord := selectedRecord'
        newComment := { nickname := "", password := "", content := "" } }
    { st := st', sv := sv',
      ops := [.insertComment comment, .selectRecords, .selectComments], result := .success }

/-- `openCommentDeleteModal`: remember the target comment, open the
comment-delete modal and clear the comment password. -/
def openCommentDeleteModal (comment : CommentRow) (st : AppState) : AppState :=
  { st with
    commentToDelete := some comment
    showCommentDeleteModal := true
    commentPassword := "" }

/-- `deleteComment`: reject unless the entered password equals the target
comment's stored password; on success delete it by id, reload, drop it from
the locally held selected record immediately, close the modal and clear the
target and the comment password.  A missing target would be a null
dereference in JS; mapped to a degenerate outcome. -/
def deleteComment (st : AppState) (sv : Server) : ActionOut :=
  match st.commentToDelete with
  | none => { st := st, sv := sv, ops := [], result := .jsError }
  | some commentToDelete =>
    if st.commentPassword ≠ commentToDelete.password then
      { st := st, sv := sv, ops := [], result := .authAlert }
    else
      let sv' := applyOp (.deleteCommentById commentToDelete.id) sv
      let selectedRecord' :=
        match st.selectedRecord with
        | some prev =>
            some { prev with comments := prev.comments.filter fun c => !(c.id == commentToDelete.id) }
        | none => none
      let st' :=
        { st with
          records := loadRecords sv'.store
          loading := false
          selectedRecord := selectedRecord'
          showCommentDeleteModal := false
          commentToDelete := none
          commentPassword := "" }
      { st := st', sv := sv',
        ops := [.deleteCommentById commentToDelete.id, .selectRecords, .selectComments],
        result := .success }

/-- The create modal's close button: `setShowModal(false); resetForm()`. -/
def createModalCancel (today : String) (st : AppState) : AppState :=
  resetForm today { st with showModal := false }

/-- The edit modal's close button: `setShowEditModal(false);
setEditTarget(null); resetForm()` — note that it does not touch
`editPassword`. -/
def editModalCancel (today : String) (st : AppState) : AppState :=
  resetForm today { st with showEditModal := false, editTarget := none }

/-- The admin-delete modal's cancel button: close, clear the target and the
admin password. -/
def deleteModalCancel (st : AppState) : AppState :=
  { st with showDeleteModal := false, deleteTarget := none, adminPassword := "" }

/-- The comment-delete modal's cancel button: close, clear the target and
the comment password. -/
def commentDeleteModalCancel (st : AppState) : AppState :=
  { st with showCommentDeleteModal := false, commentToDelete := none, commentPassword := "" }

/-- A staged photo file; `content` is its data-URL form.  `readAsDataURL`
models the `FileReader` conversion. -/
structure JsFile where
  content : String
deriving Repr, DecidableEq

/-- The `FileReader.readAsDataURL` conversion of one accepted file. -/
def readAsDataURL (f : JsFile) : String :=
  f.content

/-- Model of `Array.prototype.slice(0, e)`: a negative end counts from the
end of the array, and the end is clamped to the length. -/
def jsSliceTo (l : List α) (e : Int) : List α :=
  let len : Int := l.length
  let stop := if e < 0 then max (len + e) 0 else min e len
  l.take stop.toNat

/-- What `handlePhotoUpload` decides synchronously: which files are accepted
(`files.slice(0, 10 - selectedPhotos.length)`) and the reported count
(the alert fires only when the batch exceeds capacity, and reports
`filesToAdd.length`).  Each accepted file is then converted asynchronously
and appended to the staged list on completion. -/
structure PhotoUploadOut where
  filesToAdd : List JsFile
  report : Option Nat
deriving Repr, DecidableEq

/-- `handlePhotoUpload` (synchronous part). -/
def handlePhotoUpload (files : List JsFile) (selectedPhotos : List String) : PhotoUploadOut :=
  let remainingSlots : Int := 10 - (selectedPhotos.length : Int)
  let filesToAdd := jsSliceTo files remainingSlots
  { filesToAdd := filesToAdd
    report := if (files.length : Int) > remainingSlots then some filesToAdd.length else none }

/-- `removePhoto`: remove the staged photo at a position. -/
def removePhoto (index : Nat) (selectedPhotos : List String) : List String :=
  (selectedPhotos.enum.filter fun p => !(p.1 == index)).map (·.2)

/-- The comparator branch taken when `sortOrder === 'newest'`:
`new Date(b.date) - new Date(a.date) <= 0`, i.e. descending by date. -/
def newestLe (a b : LoadedRecord) : Bool :=
  decide (dateValue b.row.date ≤ dateValue a.row.date)

/-- The comparator branch taken otherwise: ascending by date. -/
def oldestLe (a b : LoadedRecord) : Bool :=
  decide (dateValue a.row.date ≤ dateValue b.row.date)

/-- `getSortedRecords`: sort a copy (`[...records].sort(...)`) of the record
store by activity date, direction per the `newest|oldest` toggle.
`Array.prototype.sort` is a stable sort, modelled by `mergeSort`. -/
def getSortedRecords (st : AppState) : List LoadedRecord :=
  if st.sortOrder == "newest" then st.records.mergeSort newestLe
  else st.records.mergeSort oldestLe

/-- The render-time sorted view: the derived ordering together with the
component state it was derived from, which it reads but never writes (the
sort operates on a copy of the array). -/
def getSortedRecordsView (st : AppState) : List LoadedRecord × AppState :=
  (getSortedRecords st, st)

/-- The process-wide configuration resolved from `process.env` at startup;
each variable may be absent. -/
structure EnvConfig where
  SUPABASE_URL : Option String
  SUPABASE_ANON_KEY : Option String
  ADMIN_PASSWORD : Option String
deriving Repr, DecidableEq

/-- The setup check guarding the main render:
`SUPABASE_URL === 'YOUR_SUPABASE_URL' || SUPABASE_ANON_KEY === 'YOUR_SUPABASE_ANON_KEY'`
(strict equality against the placeholder; an absent variable is `undefined`
and never strictly equals a string). -/
def setupRequired (cfg : EnvConfig) : Bool :=
  cfg.SUPABASE_URL == some "YOUR_SUPABASE_URL" ||
    cfg.SUPABASE_ANON_KEY == some "YOUR_SUPABASE_ANON_KEY"

/-- Which top-level screen the component returns. -/
inductive View where
  | setupRequired
  | loadingScreen
  | main
deriving Repr, DecidableEq

/-- The component's top-level render: the setup screen when the placeholder
check fires, else the loading spinner, else the main UI. -/
def renderView (cfg : EnvConfig) (st : AppState) : View :=
  if setupRequired cfg then .setupRequired
  else if st.loading then .loadingScreen
  else .main

/-- Mounting the component: React renders once and then runs the effect
registered by `useEffect(loadRecords, [])`.  The effect was registered by
the hook call, which precedes the early-return setup check in the component
body, so it runs — and issues `loadRecords`' two selects — regardless of
which screen that first render produced. -/
def mount (cfg : EnvConfig) (st : AppState) : View × List StoreOp :=
  (renderView cfg st, [.selectRecords, .selectComments])

/-- The component state produced by the `useState` initializers. -/
def initialAppState (today : String) : AppState :=
  { records := []
    loading := true
    currentView := "main"
    selectedRecord := none
    showModal := false
    showEditModal := false
    showDeleteModal := false
    showCommentDeleteModal := false
    deleteTarget := none
    editTarget := none
    selectedPhotos := []
    adminPassword := ""
    commentToDelete := none
    commentPassword := ""
    editPassword := ""
    newComment := { nickname := "", password := "", content := "" }
    sortOrder := "newest"
    formData := initialFormData today }

/-! Concrete sample data used by the evaluation witnesses below. -/

/-- A stored record (the worked example of the spec's scenario). -/
def sampleRecord : RecordRow :=
  { id := 1, created_at := 0, date := "2024-03-01", name := "Soup Kitchen",
    organization := "City Shelter", hours := ((3 : Nat) : Rat), location := none,
    participants := none, description := none, author_name := "Ana",
    author_password := "x1", photos := [] }

/-- A stored comment attached to `sampleRecord`. -/
def sampleComment : CommentRow :=
  { id := 2, created_at := 1, record_id := 1, nickname := "Bo", password := "y2",
    content := "Great work", timestamp := "2024. 3. 1." }

/-- A one-record, one-comment store. -/
def sampleStore : Store :=
  { records := [sampleRecord], comments := [sampleComment] }

/-- The backing service holding `sampleStore`. -/
def sampleServer : Server :=
  { store := sampleStore, nextId := 3, clock := 2 }

/-- `sampleRecord` as the component sees it after a reload. -/
def sampleLoaded : LoadedRecord :=
  { row := sampleRecord, comments := [sampleComment] }

end VolunteerRecord

namespace VolunteerRecord

/-! ## Comparator facts -/

theorem byCreatedAtAsc_trans (a b c : CommentRow) :
    byCreatedAtAsc a b → byCreatedAtAsc b c → byCreatedAtAsc a c := by
  simp only [byCreatedAtAsc, decide_eq_true_eq]
  omega

theorem byCreatedAtAsc_total (a b : CommentRow) :
    byCreatedAtAsc a b || byCreatedAtAsc b a := by
  simp only [byCreatedAtAsc, Bool.or_eq_true, decide_eq_true_eq]
  omega

/-! ## C3: the reload join -/

/-- C3: after `loadRecords`, the comment list attached to each record is
exactly the fetched comments whose `record_id` equals the record's id —
the filter of the fetched collection, hence same membership and the
fetched collection's ascending creation-time order. -/
theorem loadRecords_comments_join (s : Store) (lr : LoadedRecord)
    (hmem : lr ∈ loadRecords s) :
    lr.comments = (fetchComments s).filter (fun c => c.record_id == lr.row.id) ∧
    (∀ c : CommentRow, c ∈ lr.comments ↔ c ∈ fetchComments s ∧ c.record_id = lr.row.id) ∧
    lr.comments.Pairwise (fun a b => a.created_at ≤ b.created_at) := by
  simp only [loadRecords, attachComments, List.mem_map] at hmem
  obtain ⟨r, hr, hlr⟩ := hmem
  subst hlr
  refine ⟨rfl, ?_, ?_⟩
  · intro c
    simp [List.mem_filter]
  · have hs : (fetchComments s).Pairwise (fun a b => byCreatedAtAsc a b) :=
      List.sorted_mergeSort byCreatedAtAsc_trans byCreatedAtAsc_total s.comments
    exact (hs.filter _).imp fun h => by
      simpa [byCreatedAtAsc] using h

/-- Evaluation witness for C3 on the one-record, one-comment store. -/
theorem loadRecords_comments_join_witness :
    sampleLoaded ∈ loadRecords sampleStore ∧
    (sampleLoaded.comments =
        (fetchComments sampleStore).filter (fun c => c.record_id == sampleLoaded.row.id) ∧
      (∀ c : CommentRow, c ∈ sampleLoaded.comments ↔
        c ∈ fetchComments sampleStore ∧ c.record_id = sampleLoaded.row.id) ∧
      sampleLoaded.comments.Pairwise (fun a b => a.created_at ≤ b.created_at)) := by
  have hmem : sampleLoaded ∈ loadRecords sampleStore := by
    simp [loadRecords, attachComments, fetchRecords, fetchComments, sampleStore,
      sampleLoaded, sampleRecord, sampleComment]
  exact ⟨hmem, loadRecords_comments_join sampleStore sampleLoaded hmem⟩

/-! ## C5: edit with a wrong password -/

/-- C5: when the entered edit password differs from the target record's
stored `author_password`, `updateRecord` produces the authorization
rejection, issues no Gateway request, and leaves component state and store
(in particular the record) entirely unchanged. -/
theorem updateRecord_wrong_password (today : String) (st : AppState) (sv : Server)
    (t : LoadedRecord) (htgt : st.editTarget = some t)
    (hpw : st.editPassword ≠ t.row.author_password) :
    updateRecord today st sv = { st := st, sv := sv, ops := [], result := .authAlert } := by
  simp [updateRecord, htgt, hpw]

/-- Evaluation witness for C5: a wrong password against the sample store. -/
theorem updateRecord_wrong_password_witness :
    ({ initialAppState "2024-03-02" with
        editTarget := some sampleLoaded, editPassword := "wrong" } : AppState).editTarget =
        some sampleLoaded ∧
    ("wrong" : String) ≠ sampleLoaded.row.author_password ∧
    updateRecord "2024-03-02"
        { initialAppState "2024-03-02" with
          editTarget := some sampleLoaded, editPassword := "wrong" } sampleServer =
      { st := { initialAppState "2024-03-02" with
                editTarget := some sampleLoaded, editPassword := "wrong" },
        sv := sampleServer, ops := [], result := .authAlert } := by
  refine ⟨rfl, by decide, ?_⟩
  exact updateRecord_wrong_password "2024-03-02" _ sampleServer sampleLoaded rfl (by decide)

/-! ## C4: admin delete cascades, comments first -/

/-- C4: with the correct admin password, `deleteRecord` issues the delete of
the target's comments strictly before the delete of the record, and after the
subsequent reload neither the record nor any comment carrying its foreign key
remains, in the store or in the rebuilt record list. -/
theorem deleteRecord_cascade (ap : Option String) (st : AppState) (sv : Server) (t : Nat)
    (hpw : some st.adminPassword = ap) (htgt : st.deleteTarget = some t) :
    let out := deleteRecord ap st sv
    out.result = .success ∧
    out.ops = [.deleteCommentsByRecordId t, .deleteRecordById t,
               .selectRecords, .selectComments] ∧
    (∀ r ∈ out.sv.store.records, r.id ≠ t) ∧
    (∀ c ∈ out.sv.store.comments, c.record_id ≠ t) ∧
    (∀ lr ∈ out.st.records, lr.row.id ≠ t ∧ ∀ c ∈ lr.comments, c.record_id ≠ t) := by
  intro out
  have hout : out =
      { st := { st with
            records := loadRecords (applyOps sv
              [.deleteCommentsByRecordId t, .deleteRecordById t]).store
            loading := false
            showDeleteModal := false
            deleteTarget := none
            adminPassword := ""
            currentView := "main" }
        sv := applyOps sv [.deleteCommentsByRecordId t, .deleteRecordById t]
        ops := [.deleteCommentsByRecordId t, .deleteRecordById t,
                .selectRecords, .selectComments]
        result := .success } := by
    simp [out, deleteRecord, hpw, htgt]
  rw [hout]
  have hrec : ∀ r ∈ (applyOps sv [StoreOp.deleteCommentsByRecordId t,
      StoreOp.deleteRecordById t]).store.records, r.id ≠ t := by
    intro r hr
    simp only [applyOps, applyOp, List.foldl] at hr
    have := (List.mem_filter.mp hr).2
    simpa using this
  have hcom : ∀ c ∈ (applyOps sv [StoreOp.deleteCommentsByRecordId t,
      StoreOp.deleteRecordById t]).store.comments, c.record_id ≠ t := by
    intro c hc
    simp only [applyOps, applyOp, List.foldl] at hc
    have := (List.mem_filter.mp hc).2
    simpa using this
  refine ⟨rfl, rfl, hrec, hcom, ?_⟩
  intro lr hlr
  simp only [loadRecords, attachComments, List.mem_map] at hlr
  obtain ⟨r, hr, hlr⟩ := hlr
  subst hlr
  constructor
  · exact hrec r ((List.mem_mergeSort).mp hr)
  · intro c hc
    have hc' := (List.mem_filter.mp hc).1
    exact hcom c ((List.mem_mergeSort).mp hc')

/-- Evaluation witness for C4: admin-deleting the sample record empties the
sample store of it and of its comment. -/
theorem deleteRecord_cascade_witness :
    (some (({ initialAppState "2024-03-02" with
        deleteTarget := some 1, adminPassword := "admin123" } : AppState).adminPassword) =
      some "admin123") ∧
    (({ initialAppState "2024-03-02" with
        deleteTarget := some 1, adminPassword := "admin123" } : AppState).deleteTarget =
      some 1) ∧
    ((deleteRecord (some "admin123")
        { initialAppState "2024-03-02" with
          deleteTarget := some 1, adminPassword := "admin123" } sampleServer).result =
      .success ∧
     (deleteRecord (some "admin123")
        { initialAppState "2024-03-02" with
          deleteTarget := some 1, adminPassword := "admin123" } sampleServer).ops =
      [.deleteCommentsByRecordId 1, .deleteRecordById 1, .selectRecords, .selectComments]) := by
  have h := deleteRecord_cascade (some "admin123")
    { initialAppState "2024-03-02" with deleteTarget := some 1, adminPassword := "admin123" }
    sampleServer 1 rfl rfl
  exact ⟨rfl, rfl, h.1, h.2.1⟩

/-! ## C6: the derived sort view -/

theorem newestLe_trans (a b c : LoadedRecord) :
    newestLe a b → newestLe b c → newestLe a c := by
  simp only [newestLe, decide_eq_true_eq]
  omega

theorem newestLe_total (a b : LoadedRecord) : newestLe a b || newestLe b a := by
  simp only [newestLe, Bool.or_eq_true, decide_eq_true_eq]
  omega

theorem oldestLe_trans (a b c : LoadedRecord) :
    oldestLe a b → oldestLe b c → oldestLe a c := by
  simp only [oldestLe, decide_eq_true_eq]
  omega

theorem oldestLe_total (a b : LoadedRecord) : oldestLe a b || oldestLe b a := by
  simp only [oldestLe, Bool.or_eq_true, decide_eq_true_eq]
  omega

/-- Stability of the modelled `Array.prototype.sort` for a comparator that
ties whenever two records carry the same activity date: the records of any
one date appear in the sorted output exactly in their input order. -/
theorem mergeSort_filter_same_key (le : LoadedRecord → LoadedRecord → Bool)
    (trans : ∀ a b c, le a b → le b c → le a c)
    (total : ∀ a b, le a b || le b a)
    (hkey : ∀ a b : LoadedRecord, dateValue a.row.date = dateValue b.row.date → le a b)
    (l : List LoadedRecord) (d : Nat) :
    (l.mergeSort le).filter (fun r => dateValue r.row.date == d) =
      l.filter (fun r => dateValue r.row.date == d) := by
  set p : LoadedRecord → Bool := fun r => dateValue r.row.date == d with hp
  have hmemkey : ∀ x ∈ l.filter p, dateValue x.row.date = d := by
    intro x hx
    have := (List.mem_filter.mp hx).2
    simpa [hp] using this
  have hpair : (l.filter p).Pairwise (fun a b => le a b) :=
    List.pairwise_of_forall_mem_list fun a ha b hb =>
      hkey a b (by rw [hmemkey a ha, hmemkey b hb])
  have hsub : List.Sublist (l.filter p) (l.mergeSort le) :=
    List.sublist_mergeSort trans total hpair (List.filter_sublist l)
  have hidem : (l.filter p).filter p = l.filter p :=
    List.filter_eq_self.mpr fun a ha => (List.mem_filter.mp ha).2
  have hsubf : List.Sublist (l.filter p) ((l.mergeSort le).filter p) := by
    have h2 := hsub.filter p
    rwa [hidem] at h2
  have hlen : ((l.mergeSort le).filter p).length = (l.filter p).length :=
    ((List.mergeSort_perm l le).filter p).length_eq
  exact (hsubf.eq_of_length hlen.symm).symm

/-- When all activity dates in the collection are distinct, the descending
and the ascending sort produce exactly reversed lists. -/
theorem mergeSort_newest_eq_reverse_oldest (l : List LoadedRecord)
    (hd : l.Pairwise (fun a b => dateValue a.row.date ≠ dateValue b.row.date)) :
    l.mergeSort newestLe = (l.mergeSort oldestLe).reverse := by
  have p1 : List.Perm (l.mergeSort newestLe) l := List.mergeSort_perm l newestLe
  have p2 : List.Perm (l.mergeSort oldestLe).reverse l :=
    (List.reverse_perm _).trans (List.mergeSort_perm l oldestLe)
  have s1 : (l.mergeSort newestLe).Pairwise
      (fun a b => dateValue b.row.date ≤ dateValue a.row.date) :=
    (List.sorted_mergeSort newestLe_trans newestLe_total l).imp fun h => by
      simpa [newestLe] using h
  have d1 : (l.mergeSort newestLe).Pairwise
      (fun a b => dateValue a.row.date ≠ dateValue b.row.date) :=
    (List.Perm.pairwise_iff (fun h => h.symm) p1).mpr hd
  have strict1 : (l.mergeSort newestLe).Pairwise
      (fun a b => dateValue b.row.date < dateValue a.row.date) :=
    (s1.and d1).imp fun h => lt_of_le_of_ne h.1 (Ne.symm h.2)
  have s2 : (l.mergeSort oldestLe).Pairwise
      (fun a b => dateValue a.row.date ≤ dateValue b.row.date) :=
    (List.sorted_mergeSort oldestLe_trans oldestLe_total l).imp fun h => by
      simpa [oldestLe] using h
  have s2r : (l.mergeSort oldestLe).reverse.Pairwise
      (fun a b => dateValue b.row.date ≤ dateValue a.row.date) :=
    List.pairwise_reverse.mpr s2
  have d2 : (l.mergeSort oldestLe).reverse.Pairwise
      (fun a b => dateValue a.row.date ≠ dateValue b.row.date) :=
    (List.Perm.pairwise_iff (fun h => h.symm) p2).mpr hd
  have strict2 : (l.mergeSort oldestLe).reverse.Pairwise
      (fun a b => dateValue b.row.date < dateValue a.row.date) :=
    (s2r.and d2).imp fun h => lt_of_le_of_ne h.1 (Ne.symm h.2)
  haveI : IsAntisymm LoadedRecord (fun a b => dateValue b.row.date < dateValue a.row.date) :=
    ⟨fun a b h1 h2 => absurd (h1.trans h2) (lt_irrefl _)⟩
  exact List.eq_of_perm_of_sorted (p1.trans p2.symm) strict1 strict2

/-- C6: on a collection with pairwise-distinct activity dates the `newest`
and `oldest` toggles yield exactly reversed orderings; on any collection,
records sharing one date keep their pre-sort relative order under either
toggle (stability); the sorted view is a permutation of the store and its
derivation leaves the component state untouched. -/
theorem getSortedRecords_spec (st : AppState) :
    (st.records.Pairwise (fun a b => dateValue a.row.date ≠ dateValue b.row.date) →
      getSortedRecords { st with sortOrder := "newest" } =
        (getSortedRecords { st with sortOrder := "oldest" }).reverse) ∧
    (∀ o d, (getSortedRecords { st with sortOrder := o }).filter
        (fun r => dateValue r.row.date == d) =
      st.records.filter (fun r => dateValue r.row.date == d)) ∧
    (∀ o, (getSortedRecords { st with sortOrder := o }).Perm st.records) ∧
    (getSortedRecordsView st).2 = st := by
  refine ⟨fun hd => ?_, fun o d => ?_, fun o => ?_, rfl⟩
  · simpa [getSortedRecords] using mergeSort_newest_eq_reverse_oldest st.records hd
  · by_cases ho : o == "newest"
    · simp only [getSortedRecords, ho, if_true]
      exact mergeSort_filter_same_key newestLe newestLe_trans newestLe_total
        (fun a b h => by simp [newestLe, h]) st.records d
    · simp only [getSortedRecords, ho, Bool.false_eq_true, if_false]
      exact mergeSort_filter_same_key oldestLe oldestLe_trans oldestLe_total
        (fun a b h => by simp [oldestLe, h]) st.records d
  · by_cases ho : o == "newest"
    · simp only [getSortedRecords, ho, if_true]
      exact List.mergeSort_perm st.records newestLe
    · simp only [getSortedRecords, ho, Bool.false_eq_true, if_false]
      exact List.mergeSort_perm st.records oldestLe

/-- The component state used by the C6 evaluation witness. -/
def c6State : AppState :=
  { initialAppState "2024-03-02" with records := [sampleLoaded], loading := false }

/-- Evaluation witness for C6 on a loaded one-record state. -/
theorem getSortedRecords_spec_witness :
    (getSortedRecords { c6State with sortOrder := "newest" } =
      (getSortedRecords { c6State with sortOrder := "oldest" }).reverse) ∧
    ((getSortedRecords { c6State with sortOrder := "newest" }).filter
        (fun r => dateValue r.row.date == 20240301) =
      c6State.records.filter (fun r => dateValue r.row.date == 20240301)) ∧
    (getSortedRecords { c6State with sortOrder := "oldest" }).Perm c6State.records ∧
    (getSortedRecordsView c6State).2 = c6State := by
  obtain ⟨h1, h2, h3, h4⟩ := getSortedRecords_spec c6State
  exact ⟨h1 (by simp [c6State]), h2 "newest" 20240301, h3 "oldest", h4⟩

/-! ## C7: photo upload capacity -/

/-- C7: with `k = 10 - currentCount` slots remaining (the staged list never
holds more than 10), a batch of `n` files gets exactly `min n k` files
accepted; whatever order the per-file conversions complete in, the staged
list ends at `currentCount + min n k` entries and never exceeds 10; and the
over-capacity alert, when it fires, reports exactly `min n k`. -/
theorem handlePhotoUpload_capacity (files : List JsFile) (photos : List String)
    (hcap : photos.length ≤ 10) :
    (handlePhotoUpload files photos).filesToAdd = files.take (10 - photos.length) ∧
    (handlePhotoUpload files photos).filesToAdd.length =
      min files.length (10 - photos.length) ∧
    (∀ completed : List String,
      List.Perm completed ((handlePhotoUpload files photos).filesToAdd.map readAsDataURL) →
      (photos ++ completed).length =
        photos.length + min files.length (10 - photos.length) ∧
      (photos ++ completed).length ≤ 10) ∧
    (∀ m, (handlePhotoUpload files photos).report = some m →
      m = min files.length (10 - photos.length)) ∧
    (10 - photos.length < files.length →
      (handlePhotoUpload files photos).report =
        some (min files.length (10 - photos.length))) := by
  have hfta : (handlePhotoUpload files photos).filesToAdd = files.take (10 - photos.length) := by
    simp only [handlePhotoUpload, jsSliceTo]
    have he : ¬ ((10 : Int) - (photos.length : Int) < 0) := by omega
    rw [if_neg he]
    have hnat : (min ((10 : Int) - (photos.length : Int)) (files.length : Int)).toNat =
        min (10 - photos.length) files.length := by omega
    rw [hnat]
    rcases Nat.le_total (10 - photos.length) files.length with h | h
    · rw [Nat.min_eq_left h]
    · rw [Nat.min_eq_right h, List.take_length, List.take_of_length_le h]
  have hlen : (handlePhotoUpload files photos).filesToAdd.length =
      min files.length (10 - photos.length) := by
    rw [hfta, List.length_take, Nat.min_comm]
  refine ⟨hfta, hlen, fun completed hperm => ?_, fun m hm => ?_, fun hover => ?_⟩
  · have hclen : completed.length = min files.length (10 - photos.length) := by
      rw [hperm.length_eq, List.length_map, hlen]
    constructor
    · rw [List.length_append, hclen]
    · rw [List.length_append, hclen]
      omega
  · simp only [handlePhotoUpload] at hm
    by_cases hc : (files.length : Int) > 10 - (photos.length : Int)
    · rw [if_pos hc] at hm
      have hm' : m = (handlePhotoUpload files photos).filesToAdd.length := by
        simpa [handlePhotoUpload] using hm.symm
      rw [hm', hlen]
    · rw [if_neg hc] at hm
      exact absurd hm (by simp)
  · have hc : (files.length : Int) > 10 - (photos.length : Int) := by omega
    simp only [handlePhotoUpload, if_pos hc]
    have : (jsSliceTo files (10 - (photos.length : Int))).length =
        min files.length (10 - photos.length) := by
      have := hlen
      simpa [handlePhotoUpload] using this
    rw [this]

/-- Evaluation witness for C7: 12 files against 9 free slots accepts exactly
9 and reports 9. -/
theorem handlePhotoUpload_capacity_witness :
    (handlePhotoUpload (List.replicate 12 (JsFile.mk "f")) ["p1"]).filesToAdd.length = 9 ∧
    (handlePhotoUpload (List.replicate 12 (JsFile.mk "f")) ["p1"]).report = some 9 ∧
    (["p1"] ++ (handlePhotoUpload (List.replicate 12 (JsFile.mk "f"))
        ["p1"]).filesToAdd.map readAsDataURL).length = 10 := by
  obtain ⟨hfta, hlen, hperm, hrep, hrep2⟩ :=
    handlePhotoUpload_capacity (List.replicate 12 (JsFile.mk "f")) ["p1"] (by decide)
  refine ⟨?_, ?_, ?_⟩
  · rw [hlen]
    decide
  · rw [hrep2 (by decide)]
    decide
  · have := (hperm _ (List.Perm.refl _)).1
    rw [this]
    decide

/-! ## C8: add-comment validation and trimming -/

/-- C8: `addComment` rejects exactly when nickname, password or content is
empty after trimming (each field trimmed independently for the check); a
rejection issues no Gateway request and leaves the store untouched; on
success the inserted payload carries the trimmed nickname and content but
the password exactly as entered. -/
theorem addComment_trim_spec (now : Nat) (loc : String) (rid : Nat)
    (st : AppState) (sv : Server) :
    ((addComment now loc rid st sv).result = .validationAlert ↔
      (jsTrim st.newComment.nickname = "" ∨ jsTrim st.newComment.password = "" ∨
        jsTrim st.newComment.content = "")) ∧
    ((addComment now loc rid st sv).result = .validationAlert →
      (addComment now loc rid st sv).ops = [] ∧ (addComment now loc rid st sv).sv = sv) ∧
    (jsTrim st.newComment.nickname ≠ "" → jsTrim st.newComment.password ≠ "" →
      jsTrim st.newComment.content ≠ "" →
      (addComment now loc rid st sv).ops =
        [.insertComment
            { record_id := rid, nickname := jsTrim st.newComment.nickname,
              password := st.newComment.password, content := jsTrim st.newComment.content,
              timestamp := loc },
          .selectRecords, .selectComments]) := by
  by_cases h1 : jsTrim st.newComment.nickname = "" <;>
    by_cases h2 : jsTrim st.newComment.password = "" <;>
      by_cases h3 : jsTrim st.newComment.content = "" <;>
        simp [addComment, h1, h2, h3]

/-- The component state used by the C8 evaluation witness: draft fields with
surrounding whitespace. -/
def c8State : AppState :=
  { initialAppState "2024-03-02" with
    newComment := { nickname := "  Bo ", password := " y2 ", content := " Great work  " } }

/-- Evaluation witness for C8: the stored nickname and content come out
trimmed while the stored password keeps its surrounding spaces. -/
theorem addComment_trim_spec_witness :
    (addComment 99 "2024. 3. 2." 1 c8State sampleServer).result ≠ .validationAlert ∧
    (addComment 99 "2024. 3. 2." 1 c8State sampleServer).ops =
      [.insertComment
          { record_id := 1, nickname := "Bo", password := " y2 ", content := "Great work",
            timestamp := "2024. 3. 2." },
        .selectRecords, .selectComments] := by
  obtain ⟨hiff, hrej, hsucc⟩ := addComment_trim_spec 99 "2024. 3. 2." 1 c8State sampleServer
  constructor
  · rw [Ne, hiff]
    decide
  · rw [hsucc (by decide) (by decide) (by decide)]
    decide

/-! ## C9: a successful edit alters only the editable columns -/

/-- C9: on a successful edit (matching password, required fields present),
the single mutation sent is the `updatedData` patch scoped to the target id,
whose payload carries only the eight editable columns; applying it preserves
every row's `id`, `author_name` and `author_password`, leaves non-target
rows untouched, and never touches the comments. -/
theorem updateRecord_frame (today : String) (st : AppState) (sv : Server)
    (t : LoadedRecord) (htgt : st.editTarget = some t)
    (hpw : st.editPassword = t.row.author_password)
    (hdate : st.formData.date ≠ "") (hname : st.formData.name ≠ "")
    (horg : st.formData.organization ≠ "") (hhours : st.formData.hours ≠ "") :
    (updateRecord today st sv).result = .success ∧
    (updateRecord today st sv).ops =
      [.updateRecordById (mkUpdatedData st.formData st.selectedPhotos) t.row.id,
       .selectRecords, .selectComments] ∧
    (updateRecord today st sv).sv.store.records =
      sv.store.records.map (fun r =>
        if r.id == t.row.id then applyUpdate (mkUpdatedData st.formData st.selectedPhotos) r
        else r) ∧
    (updateRecord today st sv).sv.store.comments = sv.store.comments ∧
    (∀ (p : UpdatePayload) (r : RecordRow),
      (applyUpdate p r).id = r.id ∧ (applyUpdate p r).author_name = r.author_name ∧
      (applyUpdate p r).author_password = r.author_password) ∧
    (∀ r ∈ sv.store.records, r.id ≠ t.row.id →
      r ∈ (updateRecord today st sv).sv.store.records) := by
  have hout : updateRecord today st sv =
      { st := resetForm today
          { st with
            records := loadRecords (applyOp
              (.updateRecordById (mkUpdatedData st.formData st.selectedPhotos) t.row.id)
              sv).store
            loading := false
            showEditModal := false
            editTarget := none
            editPassword := ""
            currentView := "main" }
        sv := applyOp
          (.updateRecordById (mkUpdatedData st.formData st.selectedPhotos) t.row.id) sv
        ops := [.updateRecordById (mkUpdatedData st.formData st.selectedPhotos) t.row.id,
                .selectRecords, .selectComments]
        result := .success } := by
    simp [updateRecord, htgt, hpw, hdate, hname, horg, hhours]
  rw [hout]
  refine ⟨rfl, rfl, rfl, rfl, fun p r => ⟨rfl, rfl, rfl⟩, fun r hr hne => ?_⟩
  have hid : (if r.id == t.row.id
      then applyUpdate (mkUpdatedData st.formData st.selectedPhotos) r else r) = r :=
    if_neg (by simpa using hne)
  simp only [applyOp]
  rw [← hid]
  exact List.mem_map_of_mem _ hr

/-- The component state used by the C9 and C10 evaluation witnesses: the edit
modal open on the sample record with the correct password, a fully valid
draft whose `location` and `description` are empty while `participants` is
not. -/
def c9State : AppState :=
  { initialAppState "2024-03-05" with
    editTarget := some sampleLoaded
    editPassword := "x1"
    selectedPhotos := ["data:image/png;base64,AAA"]
    formData :=
      { date := "2024-03-05", name := "Food Drive", organization := "City Shelter",
        hours := "2.5", location := "", participants := " Kim, Lee", description := "",
        author_name := "Ana", author_password := "zz" } }

/-- Evaluation witness for C9: after the successful sample edit the stored
row keeps its id and author columns. -/
theorem updateRecord_frame_witness :
    (updateRecord "2024-03-05" c9State sampleServer).result = .success ∧
    (updateRecord "2024-03-05" c9State sampleServer).sv.store.records.map RecordRow.id =
      [1] ∧
    (updateRecord "2024-03-05" c9State sampleServer).sv.store.records.map
      RecordRow.author_name = ["Ana"] ∧
    (updateRecord "2024-03-05" c9State sampleServer).sv.store.records.map
      RecordRow.author_password = ["x1"] ∧
    (updateRecord "2024-03-05" c9State sampleServer).sv.store.records.map
      RecordRow.name = ["Food Drive"] := by
  obtain ⟨h1, h2, h3, h4, h5, h6⟩ :=
    updateRecord_frame "2024-03-05" c9State sampleServer sampleLoaded rfl (by decide)
      (by decide) (by decide) (by decide) (by decide)
  refine ⟨h1, ?_, ?_, ?_, ?_⟩ <;> rw [h3] <;> decide

/-! ## C10: empty optional fields persist as null -/

theorem jsOrNull_eq_none_iff (s : String) : jsOrNull s = none ↔ s = "" := by
  by_cases h : s = "" <;> simp [jsOrNull, h]

/-- C10: in both the create payload and the edit payload, each of the
optional fields `location`, `participants`, `description` is stored as
`null` exactly when the corresponding draft field is the empty string, so an
absent optional field and an empty input are indistinguishable once
persisted. -/
theorem optional_fields_null_iff_empty (today : String) (st : AppState) (sv : Server)
    (t : LoadedRecord) (htgt : st.editTarget = some t)
    (hpw : st.editPassword = t.row.author_password)
    (hdate : st.formData.date ≠ "") (hname : st.formData.name ≠ "")
    (horg : st.formData.organization ≠ "") (hhours : st.formData.hours ≠ "")
    (hauthor : st.formData.author_name ≠ "") (hapw : st.formData.author_password ≠ "") :
    (addRecord today st sv).ops =
      [.insertRecord (mkNewRecord st.formData st.selectedPhotos),
       .selectRecords, .selectComments] ∧
    (updateRecord today st sv).ops =
      [.updateRecordById (mkUpdatedData st.formData st.selectedPhotos) t.row.id,
       .selectRecords, .selectComments] ∧
    ((mkNewRecord st.formData st.selectedPhotos).location = none ↔
      st.formData.location = "") ∧
    ((mkNewRecord st.formData st.selectedPhotos).participants = none ↔
      st.formData.participants = "") ∧
    ((mkNewRecord st.formData st.selectedPhotos).description = none ↔
      st.formData.description = "") ∧
    ((mkUpdatedData st.formData st.selectedPhotos).location = none ↔
      st.formData.location = "") ∧
    ((mkUpdatedData st.formData st.selectedPhotos).participants = none ↔
      st.formData.participants = "") ∧
    ((mkUpdatedData st.formData st.selectedPhotos).description = none ↔
      st.formData.description = "") := by
  refine ⟨?_, ?_, ?_, ?_, ?_, ?_, ?_, ?_⟩
  · simp [addRecord, hdate, hname, horg, hhours, hauthor, hapw]
  · simp [updateRecord, htgt, hpw, hdate, hname, horg, hhours]
  all_goals
    simp only [mkNewRecord, mkUpdatedData]
    exact jsOrNull_eq_none_iff _

/-- Evaluation witness for C10 on the sample edit draft (empty `location`
and `description`, non-empty `participants`), with the create path exercised
on the same draft. -/
theorem optional_fields_null_iff_empty_witness :
    (mkNewRecord c9State.formData c9State.selectedPhotos).location = none ∧
    (mkNewRecord c9State.formData c9State.selectedPhotos).participants = some " Kim, Lee" ∧
    (mkUpdatedData c9State.formData c9State.selectedPhotos).description = none ∧
    (addRecord "2024-03-05" c9State sampleServer).ops =
      [.insertRecord (mkNewRecord c9State.formData c9State.selectedPhotos),
       .selectRecords, .selectComments] := by
  obtain ⟨h1, h2, h3, h4, h5, h6, h7, h8⟩ :=
    optional_fields_null_iff_empty "2024-03-05" c9State sampleServer sampleLoaded rfl
      (by decide) (by decide) (by decide) (by decide) (by decide) (by decide) (by decide)
  exact ⟨h3.mpr rfl, by decide, h6.mpr rfl, h1⟩

/-! ## C1: transient credentials at modal close -/

/-- A state with the edit modal open and an edit password typed in. -/
def c1EditOpenState : AppState :=
  { initialAppState "2024-03-02" with
    showEditModal := true
    editTarget := some sampleLoaded
    editPassword := "hunter2" }

/-- C1 counterexample: closing the edit modal through its cancel button
(`setShowEditModal(false); setEditTarget(null); resetForm()`) leaves the
typed edit password in state, so not every modal close resets its transient
credential. -/
theorem claimC1_counterexample :
    (editModalCancel "2024-03-02" c1EditOpenState).showEditModal = false ∧
    (editModalCancel "2024-03-02" c1EditOpenState).editPassword = "hunter2" := by
  decide

/-- C1 (amended): every modal close clears its transient credential — the
create modal's cancel and successful submit reset the draft (including its
author password), the admin-delete and comment-delete modals clear their
passwords on cancel and on success, and a successful edit submit clears the
edit password — with the single exception of the edit modal's cancel button,
which leaves `editPassword` unchanged; a stale value cannot reach a later
edit confirmation only because `openEditModal` clears the field again when
the modal opens. -/
theorem modal_close_credentials (today : String) (st : AppState) (sv : Server)
    (r : LoadedRecord) (ap : Option String) :
    (createModalCancel today st).formData.author_password = "" ∧
    (deleteModalCancel st).adminPassword = "" ∧
    (commentDeleteModalCancel st).commentPassword = "" ∧
    (editModalCancel today st).editPassword = st.editPassword ∧
    (openEditModal r st).editPassword = "" ∧
    ((addRecord today st sv).result = .success →
      (addRecord today st sv).st.formData.author_password = "") ∧
    ((updateRecord today st sv).result = .success →
      (updateRecord today st sv).st.editPassword = "" ∧
      (updateRecord today st sv).st.formData.author_password = "") ∧
    ((deleteRecord ap st sv).result = .success →
      (deleteRecord ap st sv).st.adminPassword = "") ∧
    ((deleteComment st sv).result = .success →
      (deleteComment st sv).st.commentPassword = "") := by
  refine ⟨rfl, rfl, rfl, rfl, rfl, ?_, ?_, ?_, ?_⟩
  · simp only [addRecord]
    split
    · intro h
      simp at h
    · intro _
      rfl
  · simp only [updateRecord]
    split
    · intro h
      simp at h
    · split
      · intro h
        simp at h
      · split
        · intro h
          simp at h
        · intro _
          exact ⟨rfl, rfl⟩
  · simp only [deleteRecord]
    split
    · intro h
      simp at h
    · split
      · intro h
        simp at h
      · intro _
        rfl
  · simp only [deleteComment]
    split
    · intro h
      simp at h
    · split
      · intro h
        simp at h
      · intro _
        rfl

/-- A state in which all four success paths of the amended C1 statement
actually fire: valid draft, matching edit password, matching admin and
comment passwords, targets set. -/
def c1SuccessState : AppState :=
  { initialAppState "2024-03-02" with
    formData :=
      { date := "2024-03-05", name := "Food Drive", organization := "City Shelter",
        hours := "2.5", location := "", participants := " Kim, Lee", description := "",
        author_name := "Ana", author_password := "zz" }
    editTarget := some sampleLoaded
    editPassword := "x1"
    deleteTarget := some 1
    adminPassword := "admin123"
    commentToDelete := some sampleComment
    commentPassword := "y2" }

/-- Evaluation witness for the amended C1, with every success-path premise
discharged on `c1SuccessState`. -/
theorem modal_close_credentials_witness :
    (createModalCancel "2024-03-02" c1SuccessState).formData.author_password = "" ∧
    (deleteModalCancel c1SuccessState).adminPassword = "" ∧
    (commentDeleteModalCancel c1SuccessState).commentPassword = "" ∧
    (editModalCancel "2024-03-02" c1SuccessState).editPassword = "x1" ∧
    (openEditModal sampleLoaded c1SuccessState).editPassword = "" ∧
    (addRecord "2024-03-02" c1SuccessState sampleServer).st.formData.author_password = "" ∧
    (updateRecord "2024-03-02" c1SuccessState sampleServer).st.editPassword = "" ∧
    (deleteRecord (some "admin123") c1SuccessState sampleServer).st.adminPassword = "" ∧
    (deleteComment c1SuccessState sampleServer).st.commentPassword = "" := by
  obtain ⟨h1, h2, h3, h4, h5, h6, h7, h8, h9⟩ :=
    modal_close_credentials "2024-03-02" c1SuccessState sampleServer sampleLoaded
      (some "admin123")
  exact ⟨h1, h2, h3, h4.trans (by decide), h5, h6 (by decide), (h7 (by decide)).1,
    h8 (by decide), h9 (by decide)⟩

/-! ## C2: the setup-required state -/

/-- A configuration still holding a placeholder value. -/
def placeholderConfig : EnvConfig :=
  { SUPABASE_URL := some "YOUR_SUPABASE_URL", SUPABASE_ANON_KEY := some "k",
    ADMIN_PASSWORD := some "admin123" }

/-- A configuration with every variable absent. -/
def missingConfig : EnvConfig :=
  { SUPABASE_URL := none, SUPABASE_ANON_KEY := none, ADMIN_PASSWORD := none }

/-- C2 counterexample: with the placeholder configuration the first render is
the setup screen, yet the mount effect still issues store calls; and with
the configuration entirely absent the setup screen is not even shown. -/
theorem claimC2_counterexample :
    ((mount placeholderConfig (initialAppState "2024-03-02")).1 = .setupRequired ∧
      (mount placeholderConfig (initialAppState "2024-03-02")).2 ≠ []) ∧
    (missingConfig.SUPABASE_URL = none ∧
      (mount missingConfig (initialAppState "2024-03-02")).1 ≠ .setupRequired) := by
  decide

/-- C2 (amended): the setup-required screen is rendered exactly when a
configured value equals its placeholder — an absent variable is not
detected — and the mount effect issues the two load selects regardless of
which screen was rendered, because `useEffect` registers the effect before
the early-return setup check. -/
theorem setup_state_spec (cfg : EnvConfig) (st : AppState) :
    ((mount cfg st).1 = .setupRequired ↔
      (cfg.SUPABASE_URL = some "YOUR_SUPABASE_URL" ∨
        cfg.SUPABASE_ANON_KEY = some "YOUR_SUPABASE_ANON_KEY")) ∧
    (mount cfg st).2 = [.selectRecords, .selectComments] := by
  refine ⟨?_, rfl⟩
  simp only [mount, renderView, setupRequired]
  by_cases h : (cfg.SUPABASE_URL == some "YOUR_SUPABASE_URL" ||
      cfg.SUPABASE_ANON_KEY == some "YOUR_SUPABASE_ANON_KEY") = true
  · rw [if_pos h]
    simp only [Bool.or_eq_true, beq_iff_eq] at h
    exact iff_of_true rfl h
  · rw [if_neg h]
    simp only [Bool.or_eq_true, beq_iff_eq, not_or] at h
    refine iff_of_false ?_ (by tauto)
    by_cases hl : st.loading <;> simp [hl]

end VolunteerRecord
